import Mathlib

/-!
Verification of the confidence-estimation core of the AI-vs-Human text
detector (`app.py`).  Probabilities and thresholds are embedded as exact
rationals; strings are Lean strings; the model output consumed by
`predict_ai_probability` is embedded as an ordered list of
(label, score) pairs, matching the list of dicts the classifier returns.
-/

namespace AIDetector

/-- Model of Python `len(text.split())`.  `str.split()` with no arguments
splits on runs of whitespace and drops empty tokens, so the length of the
result is the number of maximal non-whitespace runs of the string.
`countWordsAux l inWord` counts the runs of `l`, where `inWord` records
whether the previous character was part of a word. -/
def countWordsAux : List Char → Bool → Nat
  | [], _ => 0
  | c :: rest, inWord =>
    if c.isWhitespace then countWordsAux rest false
    else (if inWord then 0 else 1) + countWordsAux rest true

/-- `word_count = len(text.split())` (app.py line 45). -/
def wordCount (text : String) : Nat :=
  countWordsAux text.toList false

/-- The `indicators` dict built at app.py lines 48–52; its three keys are
"Short text length (<100 words)", "Prediction near 50%" and
"Low prediction margin". -/
structure Indicators where
  short_text : Bool
  near_50 : Bool
  low_margin : Bool
deriving DecidableEq, Repr

/-- The 4-tuple `(confidence, indicators, word_count, margin)` returned by
`estimate_confidence` (app.py line 61). -/
structure ConfidenceResult where
  confidence : String
  indicators : Indicators
  word_count : Nat
  margin : ℚ
deriving DecidableEq, Repr

/-- `estimate_confidence(text, ai_prob)` (app.py lines 44–61). -/
def estimate_confidence (text : String) (ai_prob : ℚ) : ConfidenceResult :=
  let word_count := wordCount text
  let margin := |ai_prob - 1/2|
  let indicators : Indicators :=
    { short_text := decide (word_count < 100)
      near_50 := decide (margin < 1/10)
      low_margin := decide (margin < 15/100) }
  let confidence :=
    if word_count < 100 ∨ margin < 1/10 then "🔴 Low Confidence"
    else if word_count < 200 ∨ margin < 1/5 then "🟡 Medium Confidence"
    else "🟢 High Confidence"
  ⟨confidence, indicators, word_count, margin⟩

/-- `predict_ai_probability` (app.py lines 33–39): the dict comprehension
`{item["label"]: item["score"] for item in outputs}` lets a later duplicate
label overwrite an earlier one, and `scores.get("AI", 0.5)` returns the
stored score for "AI" or the default 0.5. -/
def predict_ai_probability (outputs : List (String × ℚ)) : ℚ :=
  match outputs.reverse.find? (fun item => item.1 == "AI") with
  | some item => item.2
  | none => 1/2

/-- `human_prob = 1 - ai_prob` (app.py line 86). -/
def human_prob (ai_prob : ℚ) : ℚ :=
  1 - ai_prob

/-- Observable outcome of one run of the script body (app.py lines 83–137):
either the result sidebar/panel (carrying `ai_prob`, `human_prob` and the
`estimate_confidence` tuple), the warning of line 137, or nothing when the
button was not pressed. -/
inductive AppOutput where
  | result : ℚ → ℚ → ConfidenceResult → AppOutput
  | warning : AppOutput
  | noOutput : AppOutput
deriving DecidableEq, Repr

/-- The top-level branch `if analyze_btn and user_text.strip(): ...
elif analyze_btn: st.warning(...)` (app.py lines 83–137).  Python's
`user_text.strip()` is truthy exactly when the text trimmed of surrounding
whitespace is non-empty, i.e. when some character of the text is
non-whitespace. -/
def appStep (analyze_btn : Bool) (user_text : String)
    (model_output : List (String × ℚ)) : AppOutput :=
  if analyze_btn ∧ (user_text.toList.any fun c => !c.isWhitespace) then
    let ai_prob := predict_ai_probability model_output
    AppOutput.result ai_prob (human_prob ai_prob)
      (estimate_confidence user_text ai_prob)
  else if analyze_btn then AppOutput.warning
  else AppOutput.noOutput

/-- Abstract confidence tiers, as the spec names them. -/
inductive Tier where
  | low
  | medium
  | high
deriving DecidableEq, Repr

/-- The spec's tier decision, written from its words ("ordered, first match
wins: 1. word_count < 100 OR margin < 0.1 → Low; 2. else word_count < 200 OR
margin < 0.2 → Medium; 3. else High"), to be compared with the code. -/
def specTier (word_count : Nat) (margin : ℚ) : Tier :=
  if word_count < 100 ∨ margin < 1/10 then Tier.low
  else if word_count < 200 ∨ margin < 1/5 then Tier.medium
  else Tier.high

/-- The string label the code uses for each abstract tier. -/
def tierLabel : Tier → String
  | Tier.low => "🔴 Low Confidence"
  | Tier.medium => "🟡 Medium Confidence"
  | Tier.high => "🟢 High Confidence"

/-- A 250-word text used as a concrete long input. -/
def longText : String :=
  String.intercalate " " (List.replicate 250 "lorem")

/-- A 150-word text used as a concrete medium-length input. -/
def midText : String :=
  String.intercalate " " (List.replicate 150 "ipsum")

/-- Helper: a list of whitespace characters contains no word. -/
theorem countWordsAux_all_ws (l : List Char) (b : Bool)
    (h : ∀ c ∈ l, c.isWhitespace) : countWordsAux l b = 0 := by
  induction l generalizing b with
  | nil => rfl
  | cons c rest ih =>
    have hc : c.isWhitespace := h c (List.mem_cons_self c rest)
    simp only [countWordsAux, hc, if_true]
    exact ih false fun x hx => h x (List.mem_cons_of_mem c hx)

/-- Helper: a word count below 100 forces the Low label. -/
theorem short_text_low_aux (text : String) (p : ℚ)
    (h : wordCount text < 100) :
    (estimate_confidence text p).confidence = "🔴 Low Confidence" := by
  simp only [estimate_confidence]
  rw [if_pos (Or.inl h)]

/-- Helper: word count at least 200 and margin at least 1/5 force the High
label. -/
theorem high_confidence_aux (text : String) (p : ℚ)
    (hw : 200 ≤ wordCount text) (hm : 1/5 ≤ |p - 1/2|) :
    (estimate_confidence text p).confidence = "🟢 High Confidence" := by
  simp only [estimate_confidence]
  rw [if_neg, if_neg]
  · rintro (h | h)
    · omega
    · linarith
  · rintro (h | h)
    · omega
    · linarith

set_option maxRecDepth 8000 in
/-- Helper: `longText` has exactly 250 words. -/
theorem wordCount_longText : wordCount longText = 250 := by decide

set_option maxRecDepth 8000 in
/-- Helper: `midText` has exactly 150 words. -/
theorem wordCount_midText : wordCount midText = 150 := by decide

/-- Helper: the margin at probability 9/10 is 2/5. -/
theorem margin_at_09 : |(9:ℚ)/10 - 1/2| = 2/5 := by
  rw [show (9:ℚ)/10 - 1/2 = 2/5 by norm_num]
  exact abs_of_nonneg (by norm_num)

/-- Helper: the margin at probability 62/100 is 12/100. -/
theorem margin_at_062 : |(62:ℚ)/100 - 1/2| = 12/100 := by
  rw [show (62:ℚ)/100 - 1/2 = 12/100 by norm_num]
  exact abs_of_nonneg (by norm_num)

/-- Helper: the margin at probability 67/100 is 17/100. -/
theorem margin_at_067 : |(67:ℚ)/100 - 1/2| = 17/100 := by
  rw [show (67:ℚ)/100 - 1/2 = 17/100 by norm_num]
  exact abs_of_nonneg (by norm_num)

/-- C1: for every text and ai_probability, the tier returned by
`estimate_confidence` is exactly the spec's ordered first-match-wins rule
applied to `word_count` = number of whitespace-delimited tokens and
`margin = |ai_probability - 1/2|`. -/
theorem estimate_confidence_follows_spec (text : String) (p : ℚ) :
    (estimate_confidence text p).confidence
        = tierLabel (specTier (wordCount text) |p - 1/2|)
      ∧ (estimate_confidence text p).word_count = wordCount text
      ∧ (estimate_confidence text p).margin = |p - 1/2| := by
  refine ⟨?_, rfl, rfl⟩
  simp only [estimate_confidence, specTier]
  split_ifs <;> rfl

/-- C2: for every ai_probability `p ∈ [0,1]`, the displayed human
probability equals `1 - p` and the pair sums to exactly 1. -/
theorem human_prob_complement (p : ℚ) (_h0 : 0 ≤ p) (_h1 : p ≤ 1) :
    human_prob p = 1 - p ∧ p + human_prob p = 1 := by
  refine ⟨rfl, ?_⟩
  simp [human_prob]

/-- Witness for C2 at `p = 3/10`. -/
theorem human_prob_complement_witness :
    human_prob (3/10) = 1 - 3/10 ∧ (3/10 : ℚ) + human_prob (3/10) = 1 :=
  human_prob_complement (3/10) (by norm_num) (by norm_num)

/-- C5: any text of fewer than 100 words gets tier Low, whatever the
probability. -/
theorem short_text_low (text : String) (p : ℚ)
    (h : wordCount text < 100) :
    (estimate_confidence text p).confidence = "🔴 Low Confidence" := by
  simp only [estimate_confidence]
  rw [if_pos (Or.inl h)]

/-- Witness for C5 at a two-word text and `p = 99/100`. -/
theorem short_text_low_witness :
    (estimate_confidence "hello world" (99/100)).confidence
      = "🔴 Low Confidence" :=
  short_text_low "hello world" (99/100) (by decide)

/-- C6: a text of at least 200 words with margin at least 0.2 gets tier
High. -/
theorem long_text_high (text : String) (p : ℚ)
    (hw : 200 ≤ wordCount text) (hm : 1/5 ≤ |p - 1/2|) :
    (estimate_confidence text p).confidence = "🟢 High Confidence" :=
  high_confidence_aux text p hw hm

/-- Witness for C6 at the 250-word text and `p = 9/10` (margin 0.4). -/
theorem long_text_high_witness :
    (estimate_confidence longText (9/10)).confidence
      = "🟢 High Confidence" :=
  long_text_high longText (9/10)
    (by rw [wordCount_longText]; norm_num)
    (by rw [margin_at_09]; norm_num)

/-- C3: `predict_ai_probability` returns 0.5 when no score carries the
label "AI", and returns the stored "AI" score (the last such entry, duplicate
labels overwriting) when one is present. -/
theorem predict_ai_probability_spec (outputs : List (String × ℚ)) :
    ((∀ item ∈ outputs, item.1 ≠ "AI") →
        predict_ai_probability outputs = 1/2)
      ∧ ((∃ item ∈ outputs, item.1 = "AI") →
        ∃ item ∈ outputs, item.1 = "AI"
          ∧ predict_ai_probability outputs = item.2) := by
  constructor
  · intro h
    have hnone : outputs.reverse.find? (fun item => item.1 == "AI") = none := by
      rw [List.find?_eq_none]
      intro x hx
      simpa using h x (List.mem_reverse.mp hx)
    simp [predict_ai_probability, hnone]
  · rintro ⟨item, hmem, hlab⟩
    have hsome : (outputs.reverse.find? (fun it => it.1 == "AI")).isSome := by
      rw [List.find?_isSome]
      exact ⟨item, List.mem_reverse.mpr hmem, by simpa using hlab⟩
    obtain ⟨found, hfound⟩ := Option.isSome_iff_exists.mp hsome
    refine ⟨found, List.mem_reverse.mp (List.mem_of_find?_eq_some hfound), ?_, ?_⟩
    · simpa using List.find?_some hfound
    · simp [predict_ai_probability, hfound]

/-- Witness for C3: no "AI" entry gives 0.5, and an "AI" entry's score is
returned. -/
theorem predict_ai_probability_spec_witness :
    predict_ai_probability [("Human", 9/10)] = 1/2
      ∧ ∃ item ∈ [("Human", (3/10 : ℚ)), ("AI", 7/10)], item.1 = "AI"
          ∧ predict_ai_probability [("Human", (3/10 : ℚ)), ("AI", 7/10)] = item.2 :=
  ⟨(predict_ai_probability_spec [("Human", 9/10)]).1 (by decide),
   (predict_ai_probability_spec [("Human", (3/10 : ℚ)), ("AI", 7/10)]).2
     ⟨("AI", 7/10), by simp, rfl⟩⟩

/-- C4: when the analyze button is pressed on empty or whitespace-only text,
the run produces the warning — no result, hence no probability and no call
into `predict_ai_probability` or `estimate_confidence` — whatever the model
would have answered. -/
theorem blank_input_warning (user_text : String)
    (model_output : List (String × ℚ))
    (h : ∀ c ∈ user_text.toList, c.isWhitespace) :
    appStep true user_text model_output = AppOutput.warning := by
  have hany : (user_text.toList.any fun c => !c.isWhitespace) = false := by
    rw [List.any_eq_false]
    intro c hc
    simp [h c hc]
  simp only [appStep, hany]
  simp

/-- Witness for C4 at whitespace-only input. -/
theorem blank_input_warning_witness :
    appStep true "  \t " [("AI", 7/10)] = AppOutput.warning :=
  blank_input_warning "  \t " [("AI", 7/10)] (by decide)

/-- C7: `estimate_confidence` is symmetric in the probability around 0.5:
the whole result (tier, all indicators, word count, margin) agrees at
`0.5 + d` and `0.5 - d`. -/
theorem estimate_confidence_symmetric (text : String) (d : ℚ) :
    estimate_confidence text (1/2 + d) = estimate_confidence text (1/2 - d) := by
  have h : |(1/2 + d : ℚ) - 1/2| = |(1/2 - d : ℚ) - 1/2| := by
    rw [show (1/2 + d : ℚ) - 1/2 = d by ring,
      show (1/2 - d : ℚ) - 1/2 = -d by ring, abs_neg]
  simp only [estimate_confidence, h]

/-- C8: the tier never depends on the 0.15 threshold: two inputs agreeing on
word count and on each of the predicates `margin < 0.1` and `margin < 0.2`
get the same tier, however they compare to 0.15. -/
theorem tier_independent_of_015 (t1 t2 : String) (p1 p2 : ℚ)
    (hw : wordCount t1 = wordCount t2)
    (h1 : |p1 - 1/2| < 1/10 ↔ |p2 - 1/2| < 1/10)
    (h2 : |p1 - 1/2| < 1/5 ↔ |p2 - 1/2| < 1/5) :
    (estimate_confidence t1 p1).confidence
      = (estimate_confidence t2 p2).confidence := by
  have e1 : (wordCount t1 < 100 ∨ |p1 - 1/2| < 1/10)
      ↔ (wordCount t2 < 100 ∨ |p2 - 1/2| < 1/10) := by
    rw [hw]; exact or_congr Iff.rfl h1
  have e2 : (wordCount t1 < 200 ∨ |p1 - 1/2| < 1/5)
      ↔ (wordCount t2 < 200 ∨ |p2 - 1/2| < 1/5) := by
    rw [hw]; exact or_congr Iff.rfl h2
  simp only [estimate_confidence]
  by_cases hA : wordCount t2 < 100 ∨ |p2 - 1/2| < 1/10
  · rw [if_pos (e1.mpr hA), if_pos hA]
  · rw [if_neg (fun hx => hA (e1.mp hx)), if_neg hA]
    by_cases hB : wordCount t2 < 200 ∨ |p2 - 1/2| < 1/5
    · rw [if_pos (e2.mpr hB), if_pos hB]
    · rw [if_neg (fun hx => hB (e2.mp hx)), if_neg hB]

/-- Witness for C8: probabilities 0.62 and 0.67 on the same 150-word text
disagree on `margin < 0.15` (0.12 < 0.15 but 0.17 ≥ 0.15) yet agree on the
0.1 and 0.2 predicates, and the tiers coincide. -/
theorem tier_independent_of_015_witness :
    (estimate_confidence midText (62/100)).indicators.low_margin = true
      ∧ (estimate_confidence midText (67/100)).indicators.low_margin = false
      ∧ (estimate_confidence midText (62/100)).confidence
          = (estimate_confidence midText (67/100)).confidence := by
  refine ⟨?_, ?_, ?_⟩
  · simp only [estimate_confidence, margin_at_062, decide_eq_true_eq]
    norm_num
  · simp only [estimate_confidence, margin_at_067, decide_eq_false_iff_not]
    norm_num
  · exact tier_independent_of_015 midText midText (62/100) (67/100) rfl
      (by rw [margin_at_062, margin_at_067]; norm_num)
      (by rw [margin_at_062, margin_at_067]; norm_num)

/-- C9: `estimate_confidence` is total and always returns one of the three
tiers; empty or whitespace-only text has `word_count = 0` (Python's
`str.split()` drops empty tokens) and therefore gets tier Low. -/
theorem estimate_confidence_total (text : String) (p : ℚ) :
    ((estimate_confidence text p).confidence = "🔴 Low Confidence"
      ∨ (estimate_confidence text p).confidence = "🟡 Medium Confidence"
      ∨ (estimate_confidence text p).confidence = "🟢 High Confidence")
    ∧ ((∀ c ∈ text.toList, c.isWhitespace) →
        wordCount text = 0
          ∧ (estimate_confidence text p).confidence = "🔴 Low Confidence") := by
  constructor
  · simp only [estimate_confidence]
    split_ifs
    · exact Or.inl rfl
    · exact Or.inr (Or.inl rfl)
    · exact Or.inr (Or.inr rfl)
  · intro h
    have hz : wordCount text = 0 := countWordsAux_all_ws text.toList false h
    exact ⟨hz, short_text_low_aux text p (by omega)⟩

/-- Witness for C9 at whitespace-only text `" \t\n"` and `p = 3/4`. -/
theorem estimate_confidence_total_witness :
    wordCount " \t\n" = 0
      ∧ (estimate_confidence " \t\n" (3/4)).confidence = "🔴 Low Confidence" :=
  (estimate_confidence_total " \t\n" (3/4)).2 (by decide)

/-- C10: whenever the tier is High, all three uncertainty indicators are
false. -/
theorem high_tier_all_indicators_false (text : String) (p : ℚ)
    (h : (estimate_confidence text p).confidence = "🟢 High Confidence") :
    (estimate_confidence text p).indicators.short_text = false
      ∧ (estimate_confidence text p).indicators.near_50 = false
      ∧ (estimate_confidence text p).indicators.low_margin = false := by
  simp only [estimate_confidence] at h ⊢
  by_cases hA : wordCount text < 100 ∨ |p - 1/2| < 1/10
  · rw [if_pos hA] at h
    exact absurd h (by decide)
  · by_cases hB : wordCount text < 200 ∨ |p - 1/2| < 1/5
    · rw [if_neg hA, if_pos hB] at h
      exact absurd h (by decide)
    · push_neg at hA hB
      refine ⟨?_, ?_, ?_⟩
      · simp only [decide_eq_false_iff_not, not_lt]
        omega
      · simp only [decide_eq_false_iff_not, not_lt]
        linarith [hB.2]
      · simp only [decide_eq_false_iff_not, not_lt]
        linarith [hB.2]

/-- Witness for C10 at the 250-word text and `p = 9/10` (tier High). -/
theorem high_tier_all_indicators_false_witness :
    (estimate_confidence longText (9/10)).indicators.short_text = false
      ∧ (estimate_confidence longText (9/10)).indicators.near_50 = false
      ∧ (estimate_confidence longText (9/10)).indicators.low_margin = false :=
  high_tier_all_indicators_false longText (9/10)
    (high_confidence_aux longText (9/10)
      (by rw [wordCount_longText]; norm_num)
      (by rw [margin_at_09]; norm_num))

end AIDetector
